import Mathlib

/-!
# EventHub agentic support pipeline — verification development

Shallow embedding of the ticket-processing engine of the
EventHub customer-support repository:

* `src/agentic/workflow/nodes.py` (`tool_calling_node`, `resolver_node`,
  `escalation_node`, `response_node`, `route_from_resolver`)
* `src/agentic/agents/resolver.py` (`TicketResolver.resolve`, `_should_escalate`)
* `src/agentic/agents/escalation.py` (`EscalationAgent.escalate`,
  `_generate_customer_message`, `_calculate_priority`)
* `src/agentic/agents/classifier.py` (`TicketClassifier.classify`,
  `_parse_response`)
* `src/agentic/tools/rag_tools.py` (`search_knowledge_base` result formatting)
* `src/agentic/tools/db_tools.py` (`create_support_ticket`)
* `src/agentic/workflow/graph.py` (`run_ticket` persistence tail)

Python floats are embedded as `ℚ`; Python dictionaries as insertion-ordered
association lists; fallible external collaborators (Bedrock LLM calls, the
Chroma search, the SQL store) as `Except`-valued oracles supplied as
parameters.  External calls attempted by `tool_calling_node` are logged
explicitly so that "no lookup is performed" claims are statable.
-/

/-- A Python value, as far as the pipeline inspects values: strings,
numbers (floats embedded as rationals), booleans, `None`, lists and
(insertion-ordered) dictionaries. -/
inductive PyVal where
  | vstr : String → PyVal
  | vnum : ℚ → PyVal
  | vbool : Bool → PyVal
  | vnone : PyVal
  | vlist : List PyVal → PyVal
  | vdict : List (String × PyVal) → PyVal

/-- Python dictionary read `d.get(k)`: the value of the first binding of `k`
(insertion-ordered association list; keys built by the pipeline are unique). -/
def dget (d : List (String × PyVal)) (k : String) : Option PyVal :=
  (d.find? (fun p => p.1 == k)).map (·.2)

/-- Python truthiness of a value, for the `if tool_results.get(...)`-style
tests the pipeline performs. -/
def pyTruthy : PyVal → Bool
  | .vstr s => s ≠ ""
  | .vnum q => q ≠ 0
  | .vbool b => b
  | .vnone => false
  | .vlist l => ¬ l.isEmpty
  | .vdict d => ¬ d.isEmpty

/-- Truthiness of an optional value (`None`/absent is falsy). -/
def pyTruthyOpt : Option PyVal → Bool
  | none => false
  | some v => pyTruthy v

/-- Python `str.lower()` (ASCII case folding; all strings the engine
compares are ASCII). -/
def strLower (s : String) : String := ⟨s.data.map Char.toLower⟩

/-- Python `needle in haystack` on strings: substring containment. -/
def strContains (haystack needle : String) : Bool :=
  decide (needle.data <:+: haystack.data)

/-- Python slice `s[:n]`: the first `n` characters. -/
def strTake (s : String) (n : ℕ) : String := ⟨s.data.take n⟩

/-- Round a rational to the nearest integer, ties to even — the rounding
used by Python `round` and by `format` on the decimal digit string. -/
def roundHalfEven (q : ℚ) : ℤ :=
  if q - ⌊q⌋ < 1/2 then ⌊q⌋
  else if q - ⌊q⌋ > 1/2 then ⌊q⌋ + 1
  else if 2 ∣ ⌊q⌋ then ⌊q⌋ else ⌊q⌋ + 1

/-- Python `f"{q:.1%}"`: the value times 100, one decimal digit, a `%` sign. -/
def formatPercent (q : ℚ) : String :=
  let n : ℤ := roundHalfEven (q * 1000)
  let a : ℕ := n.natAbs
  let core : String := toString (a / 10) ++ "." ++ toString (a % 10) ++ "%"
  if n < 0 then "-" ++ core else core

/-- Python `round(q, 3)`. -/
def round3 (q : ℚ) : ℚ := (roundHalfEven (q * 1000) : ℚ) / 1000

/-- Classification fields as threaded through the workflow state
(`category`, `urgency`, `sentiment`, `summary` of `TicketState`). -/
structure Classification where
  category : String
  urgency : String
  sentiment : String
  summary : String
deriving DecidableEq

/-- Ticket input fields of the workflow state.  `user_email` and
`reservation_id` are optional; the empty string is falsy in the Python
`if user_email:` / `if state.get("reservation_id"):` tests. -/
structure TicketData where
  ticket_id : String
  subject : String
  description : String
  user_email : Option String
  reservation_id : Option String

/-- Truthiness of an optional string field (Python: `None` and `""` falsy). -/
def truthyStr : Option String → Bool
  | none => false
  | some s => s ≠ ""

/-! ## Escalation rule engine (`resolver.py`, `_should_escalate`) -/

/-- The fixed hedging phrases of rule 4 of `_should_escalate`
(`insufficient_markers` in `resolver.py`). -/
def insufficientMarkers : List String :=
  ["don't have enough information",
   "don't have that information",
   "connect you with a specialist",
   "unable to resolve",
   "need to escalate",
   "let me connect you"]

/-- Rule 6 scan of `_should_escalate`: iterate the tool results in
insertion order; the first value that is a string whose lowercase form
contains "error", while the category is `refund` or `cancellation`,
triggers the escalation (the category test is loop-invariant, so folding
it into the per-item condition matches the source's control flow). -/
def findToolError (toolResults : List (String × PyVal)) (category : String) :
    Option String :=
  match toolResults with
  | [] => none
  | (_, .vstr s) :: rest =>
      if strContains (strLower s) "error" ∧
         (category = "refund" ∨ category = "cancellation") then some s
      else findToolError rest category
  | _ :: rest => findToolError rest category

/-- `TicketResolver._should_escalate` (`resolver.py` lines 216–278):
the ordered, first-match-wins escalation rule set.  Returns
`(should_escalate, reason)`. -/
def shouldEscalate (classification : Classification) (ragConfidence : ℚ)
    (kbResults : List PyVal) (responseText : String)
    (toolResults : List (String × PyVal)) : Bool × String :=
  let category := classification.category
  let urgency := classification.urgency
  let sentiment := classification.sentiment
  -- Rule 1: Always escalate complaints
  if category = "complaint" then
    (true, "Complaints require human review for customer satisfaction")
  -- Rule 2: Low KB confidence (<50% relevance)
  else if ragConfidence < 1/2 then
    (true, "Low knowledge base confidence (" ++ formatPercent ragConfidence ++ ")")
  -- Rule 3: No KB results found
  else if kbResults.isEmpty then
    (true, "No relevant knowledge base articles found")
  -- Rule 4: Response indicates insufficient information
  else if insufficientMarkers.any (fun m => strContains (strLower responseText) m) then
    (true, "Response indicates need for specialist assistance")
  -- Rule 5: Critical + negative combination (extra scrutiny)
  else if urgency = "critical" ∧ sentiment = "negative" ∧ ragConfidence < 7/10 then
    (true, "Critical negative issue with moderate KB confidence ("
           ++ formatPercent ragConfidence ++ ")")
  -- Rule 6: Check for tool errors
  else
    match findToolError toolResults category with
    | some v => (true, "Tool error in critical category: " ++ strTake v 100)
    | none => (false, "")

/-! ## Escalation priority (`escalation.py`, `_calculate_priority`) -/

/-- `EscalationAgent._calculate_priority` (`escalation.py` lines 124–151):
priority for the human queue, 1 = highest, 4 = lowest, first matching
rule wins. -/
def calculatePriority (classification : Classification)
    (escalationReason : String) : ℕ :=
  let urgency := classification.urgency
  let sentiment := classification.sentiment
  let category := classification.category
  -- P1: Critical or complaints
  if urgency = "critical" ∨ category = "complaint" then 1
  -- P2: High urgency with negative sentiment
  else if urgency = "high" ∧ sentiment = "negative" then 2
  -- P3: Medium urgency or confidence issues
  else if urgency = "medium" ∨ urgency = "high" ∨
          strContains (strLower escalationReason) "confidence" then 3
  -- P4: Low urgency
  else 4

/-! ## Knowledge-base search result formatting (`rag_tools.py`) -/

/-- One row of a Chroma query result as consumed by
`search_knowledge_base`: the stored document, its metadata and its
cosine distance. -/
structure ChromaRow where
  document : String
  metadata : List (String × PyVal)
  distance : ℚ

/-- The result-formatting loop of `search_knowledge_base`
(`rag_tools.py` lines 110–124): each row becomes a dictionary with keys
`title`, `content`, `category`, `article_id` and `relevance_score`,
where `relevance_score = round(1 - distance, 3)`. -/
def searchKnowledgeBaseFormat (rows : List ChromaRow) : List PyVal :=
  rows.map (fun r =>
    .vdict [("title", (dget r.metadata "title").getD (.vstr "Unknown")),
            ("content", .vstr r.document),
            ("category", (dget r.metadata "category").getD (.vstr "General")),
            ("article_id", (dget r.metadata "article_id").getD (.vstr "")),
            ("relevance_score", .vnum (round3 (1 - r.distance)))])

/-! ## Workflow state (`state.py`) and context gathering (`nodes.py`) -/

/-- The shared `TicketState` of `state.py`.  Every key is present from
`create_initial_state` on, so `state.get(k, default)` reads in the nodes
always see the stored value. -/
structure TState where
  ticket_id : String
  subject : String
  description : String
  user_email : Option String
  reservation_id : Option String
  category : String
  urgency : String
  sentiment : String
  summary : String
  tool_results : List (String × PyVal)
  rag_confidence : ℚ
  response : String
  escalation_reason : String
  status : String
  escalation_priority : ℕ
  customer_message : String
  escalation_package : PyVal
  final_response : String
  final_status : String

/-- `create_initial_state` (`state.py` lines 64–117). -/
def createInitialState (ticket_id subject description : String)
    (user_email reservation_id : Option String) : TState :=
  { ticket_id := ticket_id
    subject := subject
    description := description
    user_email := user_email
    reservation_id := reservation_id
    category := ""
    urgency := ""
    sentiment := ""
    summary := ""
    tool_results := []
    rag_confidence := 0
    response := ""
    escalation_reason := ""
    status := ""
    escalation_priority := 4
    customer_message := ""
    escalation_package := .vdict []
    final_response := ""
    final_status := "" }

/-- The external lookups `tool_calling_node` can attempt, with their
arguments — an explicit effect log, so that claims about which calls are
performed are statable. -/
inductive ExtCall where
  | kbSearch (query : String) (topK : ℕ)
  | userInfo (email : String)
  | userReservations (email : String) (limit : ℕ)
  | userTickets (email : String) (limit : ℕ)
  | reservationInfo (rid : String)
deriving DecidableEq

/-- The external collaborators of the context gatherer: the knowledge-base
search and the four data-store reads, each of which may fail. -/
structure Env where
  kbSearch : String → ℕ → Except String (List PyVal)
  getUserInfo : String → Except String PyVal
  getUserReservations : String → ℕ → Except String PyVal
  getUserTickets : String → ℕ → Except String PyVal
  getReservationInfo : String → Except String PyVal

/-- `try ... except e: tool_results[k] = {"error": str(e)}` — the
dictionary-shaped error marker used for `user_info` and
`reservation_info`. -/
def dictOrErr : Except String PyVal → PyVal
  | .ok v => v
  | .error e => .vdict [("error", .vstr e)]

/-- `try ... except e: tool_results[k] = [{"error": str(e)}]` — the
list-shaped error marker used for `kb_results`, `user_reservations` and
`user_support_tickets`. -/
def listOrErr : Except String PyVal → PyVal
  | .ok v => v
  | .error e => .vlist [.vdict [("error", .vstr e)]]

/-- A number read out of a `PyVal` slot the engine treats as a float
(the pipeline only ever stores numbers in these slots). -/
def pyNum : PyVal → ℚ
  | .vnum q => q
  | _ => 0

/-- The RAG-confidence computation of `tool_calling_node`
(`nodes.py` lines 135–141): the stored `kb_results` value must be a
truthy (non-empty) list whose first element is a dictionary containing
the key `"relevance"`; otherwise the confidence is `0.0`. -/
def ragConfidenceFromKb (v : Option PyVal) : ℚ :=
  match v with
  | some (.vlist l) =>
      if ¬ l.isEmpty then
        match l.head? with
        | some (.vdict d) =>
            match dget d "relevance" with
            | some r => pyNum r
            | none => 0
        | _ => 0
      else 0
  | _ => 0

/-- The fixed polite-decline response of the off-topic guardrail in
`tool_calling_node` (`nodes.py` lines 117–122; four adjacent Python
string literals). -/
def offTopicDecline : String :=
  "I'm EventHub's customer support assistant, and I specialize in helping with "
  ++ "event bookings, tickets, reservations, refunds, and account-related questions. "
  ++ "Unfortunately, I'm not able to help with questions outside of these topics. "
  ++ "Is there anything related to your EventHub experience I can assist you with?"

/-- The state updates returned by `tool_calling_node`, plus the log of
external calls it attempted. -/
structure ToolUpdate where
  tool_results : List (String × PyVal)
  rag_confidence : ℚ
  status : Option String
  response : Option String
  calls : List ExtCall

/-- `tool_calling_node` (`nodes.py` lines 91–182): off-topic guardrail,
then the always-on knowledge-base search, then the caller lookups when an
email is present, then the reservation lookup for
refund/cancellation/complaint with a reservation id.  Every lookup is
individually guarded; a failure becomes an error marker under the
lookup's key. -/
def toolCallingNode (env : Env) (st : TState) : ToolUpdate :=
  let category := st.category
  if category = "off_topic" then
    -- Return early with polite rejection - no expensive tool calls
    { tool_results := [("off_topic", .vbool true)]
      rag_confidence := 0
      status := some "resolved"
      response := some offTopicDecline
      calls := [] }
  else
    let query := st.subject ++ " " ++ st.description
    let kbEntries : List (String × PyVal) :=
      [("kb_results", listOrErr (env.kbSearch query 3 |>.map .vlist))]
    let ragConfidence := ragConfidenceFromKb (dget kbEntries "kb_results")
    let userEntries : List (String × PyVal) :=
      match st.user_email with
      | some em =>
          if em ≠ "" then
            [("user_info", dictOrErr (env.getUserInfo em)),
             ("user_reservations", listOrErr (env.getUserReservations em 10)),
             ("user_support_tickets", listOrErr (env.getUserTickets em 5))]
          else []
      | none => []
    let userCalls : List ExtCall :=
      match st.user_email with
      | some em =>
          if em ≠ "" then
            [.userInfo em, .userReservations em 10, .userTickets em 5]
          else []
      | none => []
    let resEntries : List (String × PyVal) :=
      if category = "refund" ∨ category = "cancellation" ∨ category = "complaint" then
        match st.reservation_id with
        | some rid =>
            if rid ≠ "" then
              [("reservation_info", dictOrErr (env.getReservationInfo rid))]
            else []
        | none => []
      else []
    let resCalls : List ExtCall :=
      if category = "refund" ∨ category = "cancellation" ∨ category = "complaint" then
        match st.reservation_id with
        | some rid => if rid ≠ "" then [.reservationInfo rid] else []
        | none => []
      else []
    { tool_results := kbEntries ++ userEntries ++ resEntries
      rag_confidence := ragConfidence
      status := none
      response := none
      calls := [.kbSearch query 3] ++ userCalls ++ resCalls }

/-! ## Resolution stage (`resolver.py`, `resolve`; `nodes.py`, `resolver_node`) -/

/-- The resolution record returned by `TicketResolver.resolve`
(the fields the workflow consumes). -/
structure Resolution where
  status : String
  response : String
  tool_results : List (String × PyVal)
  escalation_reason : String
  rag_confidence : ℚ

/-- `TicketResolver.resolve` (`resolver.py` lines 84–214).  The single
LLM invocation is embedded by its outcome `llmOutcome`; the prompt text
it is given does not influence the control flow.  On LLM failure the
method returns an escalated resolution with reason
`"Resolution error: <details>"` instead of propagating the error. -/
def resolve (llmOutcome : Except String String)
    (classification : Classification)
    (toolResults : List (String × PyVal)) : Resolution :=
  -- kb_results = tool_results.get("kb_results", []); the pipeline only
  -- ever stores a list under this key.
  let kbResults : List PyVal :=
    match dget toolResults "kb_results" with
    | some (.vlist l) => l
    | _ => []
  -- rag_confidence = kb_results[0].get("relevance", 0.0) when the list is
  -- non-empty (the first element is always a dictionary in the pipeline).
  let ragConfidence : ℚ :=
    match kbResults with
    | .vdict d :: _ =>
        match dget d "relevance" with
        | some r => pyNum r
        | none => 0
    | _ => 0
  match llmOutcome with
  | .ok responseText =>
      let er := shouldEscalate classification ragConfidence kbResults
                  responseText toolResults
      { status := if er.1 then "escalated" else "resolved"
        response := responseText
        tool_results := toolResults
        escalation_reason := if er.1 then er.2 else ""
        rag_confidence := ragConfidence }
  | .error e =>
      -- On error, escalate with context
      { status := "escalated"
        response := ""
        tool_results := toolResults
        escalation_reason := "Resolution error: " ++ e
        rag_confidence := ragConfidence }

/-- The state updates returned by `resolver_node`. -/
structure ResolverUpdate where
  response : String
  status : String
  escalation_reason : String
  rag_confidence : ℚ

/-- `resolver_node` (`nodes.py` lines 185–240): the off-topic
short-circuit re-emits the already-set response with status `resolved`;
otherwise `TicketResolver.resolve` runs on the gathered context. -/
def resolverNode (llmOutcome : Except String String) (st : TState) :
    ResolverUpdate :=
  if pyTruthyOpt (dget st.tool_results "off_topic") then
    { response := st.response
      status := "resolved"
      escalation_reason := ""
      rag_confidence := 0 }
  else
    let r := resolve llmOutcome
               ⟨st.category, st.urgency, st.sentiment, st.summary⟩
               st.tool_results
    { response := r.response
      status := r.status
      escalation_reason := r.escalation_reason
      rag_confidence := r.rag_confidence }

/-! ## Escalation packaging (`escalation.py`; `nodes.py`, `escalation_node`) -/

/-- An optional string rendered as a Python value (`None` when absent). -/
def optStr : Option String → PyVal
  | some s => .vstr s
  | none => .vnone

/-- `EscalationAgent._get_priority_label` (`escalation.py` lines 186–194). -/
def getPriorityLabel (p : ℕ) : String :=
  if p = 1 then "🔴 CRITICAL"
  else if p = 2 then "🟠 HIGH"
  else if p = 3 then "🟡 MEDIUM"
  else if p = 4 then "🟢 LOW"
  else "🟡 MEDIUM"

/-- `EscalationAgent._format_escalation_package`
(`escalation.py` lines 153–184). -/
def formatEscalationPackage (td : TicketData) (c : Classification)
    (toolResults : List (String × PyVal)) (reason : String)
    (resolverResponse : Option String) (priority : ℕ) : PyVal :=
  .vdict
    [("ticket_info", .vdict
        [("ticket_id", .vstr td.ticket_id),
         ("subject", .vstr td.subject),
         ("description", .vstr td.description),
         ("user_email", optStr td.user_email),
         ("reservation_id", optStr td.reservation_id)]),
     ("classification", .vdict
        [("category", .vstr c.category),
         ("urgency", .vstr c.urgency),
         ("sentiment", .vstr c.sentiment),
         ("summary", .vstr c.summary)]),
     ("escalation_info", .vdict
        [("reason", .vstr reason),
         ("priority", .vnum priority),
         ("priority_label", .vstr (getPriorityLabel priority)),
         ("resolver_attempted", .vbool resolverResponse.isSome)]),
     ("tool_results", .vdict toolResults)]

/-- `EscalationAgent._generate_customer_message`
(`escalation.py` lines 104–122): format the prompt, invoke the model,
strip the reply.  The method body contains NO exception handling, so a
model failure propagates to the caller. -/
def generateCustomerMessage (llmOutcome : Except String String) :
    Except String String :=
  match llmOutcome with
  | .ok text => .ok text.trim
  | .error e => .error e

/-- The record returned by `EscalationAgent.escalate`. -/
structure EscalateResult where
  status : String
  customer_message : String
  escalation_package : PyVal
  priority : ℕ

/-- `EscalationAgent.escalate` (`escalation.py` lines 58–102): generate
the customer message first, then the priority, then the package.  The
customer-message generation can fail, and its failure propagates
(nothing downstream of it is produced). -/
def escalate (llmOutcome : Except String String) (td : TicketData)
    (c : Classification) (toolResults : List (String × PyVal))
    (escalationReason : String) (resolverResponse : Option String) :
    Except String EscalateResult := do
  let msg ← generateCustomerMessage llmOutcome
  let priority := calculatePriority c escalationReason
  let pkg := formatEscalationPackage td c toolResults escalationReason
               resolverResponse priority
  pure { status := "escalated"
         customer_message := msg
         escalation_package := pkg
         priority := priority }

/-- The state updates returned by `escalation_node`. -/
structure EscUpdate where
  escalation_priority : ℕ
  customer_message : String
  escalation_package : PyVal
  final_response : String
  final_status : String

/-- `escalation_node` (`nodes.py` lines 243–292).  The node has no
exception handling of its own, so a failure of
`EscalationAgent.escalate` propagates out of the node. -/
def escalationNode (llmOutcome : Except String String) (st : TState) :
    Except String EscUpdate :=
  match escalate llmOutcome
          ⟨st.ticket_id, st.subject, st.description, st.user_email,
           st.reservation_id⟩
          ⟨st.category, st.urgency, st.sentiment, st.summary⟩
          st.tool_results st.escalation_reason (some st.response) with
  | .ok r =>
      .ok { escalation_priority := r.priority
            customer_message := r.customer_message
            escalation_package := r.escalation_package
            final_response := r.customer_message
            final_status := "escalated" }
  | .error e => .error e

/-- `response_node` (`nodes.py` lines 295–310). -/
def responseNode (st : TState) : String × String :=
  (st.response, "resolved")

/-- `route_from_resolver` (`nodes.py` lines 317–331): `"escalate"` when
the status is exactly `"escalated"`, otherwise `"respond"`. -/
def routeFromResolver (st : TState) : String :=
  if st.status = "escalated" then "escalate" else "respond"

/-! ## Workflow wiring (`graph.py`, `create_workflow`) -/

/-- Merge a `ToolUpdate` into the shared state (LangGraph merges the
returned dictionary into the state; keys the node did not return keep
their previous values). -/
def applyToolUpdate (st : TState) (u : ToolUpdate) : TState :=
  { st with tool_results := u.tool_results
            rag_confidence := u.rag_confidence
            status := u.status.getD st.status
            response := u.response.getD st.response }

/-- Merge a `ResolverUpdate` into the shared state. -/
def applyResolverUpdate (st : TState) (u : ResolverUpdate) : TState :=
  { st with response := u.response
            status := u.status
            escalation_reason := u.escalation_reason
            rag_confidence := u.rag_confidence }

/-- The conditional edge of `create_workflow` (`graph.py` lines 93–104):
`route_from_resolver` picks `escalation_node` or `response_node`, both of
which end the workflow. -/
def routerDispatch (escalateLLM : Except String String) (st2 : TState) :
    Except String TState :=
  if routeFromResolver st2 = "escalate" then
    match escalationNode escalateLLM st2 with
    | .ok eu =>
        .ok { st2 with escalation_priority := eu.escalation_priority
                       customer_message := eu.customer_message
                       escalation_package := eu.escalation_package
                       final_response := eu.final_response
                       final_status := eu.final_status }
    | .error e => .error e
  else
    .ok { st2 with final_response := (responseNode st2).1
                   final_status := (responseNode st2).2 }

/-- The workflow from the context-gathering node to the terminal node,
continuing `routerDispatch`: `tool_caller → resolver → router →
{escalate | respond} → END`. -/
def runFromClassified (env : Env)
    (resolveLLM escalateLLM : Except String String) (st0 : TState) :
    Except String TState × List ExtCall :=
  let u := toolCallingNode env st0
  let st1 := applyToolUpdate st0 u
  let st2 := applyResolverUpdate st1 (resolverNode resolveLLM st1)
  (routerDispatch escalateLLM st2, u.calls)

/-! ## Classification stage (`classifier.py`) -/

/-- The `{` character (written via its code point). -/
def lbrace : Char := Char.ofNat 123

/-- The `}` character (written via its code point). -/
def rbrace : Char := Char.ofNat 125

/-- Index of the first occurrence of a character in a character list. -/
def firstIdx (c : Char) : List Char → Option ℕ
  | [] => none
  | x :: xs => if x = c then some 0 else (firstIdx c xs).map (· + 1)

/-- Python `s.find(c)`: index of the first occurrence, `-1` if absent. -/
def pyFind (s : String) (c : Char) : ℤ :=
  match firstIdx c s.data with
  | some i => (i : ℤ)
  | none => -1

/-- Python `s.rfind(c)`: index of the last occurrence, `-1` if absent. -/
def pyRFind (s : String) (c : Char) : ℤ :=
  match firstIdx c s.data.reverse with
  | some i => ((s.data.length - 1 - i : ℕ) : ℤ)
  | none => -1

/-- Python slice `s[i:j]` (character positions, `0 ≤ i ≤ j`). -/
def pySlice (s : String) (i j : ℕ) : String := ⟨(s.data.take j).drop i⟩

/-- The `except json.JSONDecodeError` branch of
`TicketClassifier._parse_response` (`classifier.py` lines 141–168): a
parser failure is re-raised as the `ValueError` message the method
builds. -/
def wrapParseError (attempt : Except String PyVal) (responseText : String) :
    Except String PyVal :=
  match attempt with
  | .ok v => .ok v
  | .error e =>
      .error ("Failed to parse JSON response: " ++ e
              ++ "\nResponse: " ++ responseText)

/-- `TicketClassifier._parse_response` (`classifier.py` lines 141–168):
take the substring from the first `{` to the last `}` and hand it to the
JSON parser (embedded as the oracle `jp`); if the braces are not found
in the right order, parse the whole reply. -/
def parseResponse (jp : String → Except String PyVal)
    (responseText : String) : Except String PyVal :=
  let startIdx : ℤ := pyFind responseText lbrace
  let endIdx : ℤ := pyRFind responseText rbrace + 1
  let attempt : Except String PyVal :=
    if startIdx ≠ -1 ∧ endIdx > startIdx then
      jp (pySlice responseText startIdx.toNat endIdx.toNat)
    else
      jp responseText
  wrapParseError attempt responseText

/-- The classification dictionary returned by `TicketClassifier.classify`.
`category` is validated to a string; the other fields are passed through
from the parsed JSON unvalidated. -/
structure ClassifyOutput where
  category : String
  urgency : PyVal
  sentiment : PyVal
  summary : PyVal
  error : Option String

/-- The six recognized categories (`TICKET_CATEGORIES` keys in
`classifier_prompts.py`; `self.categories` in the classifier). -/
def classifyCategories : List String :=
  ["refund", "cancellation", "general", "technical", "complaint", "off_topic"]

/-- The degraded classification built by the `except` branch of
`classify` (`classifier.py` lines 130–139). -/
def degradedClassification (e : String) : ClassifyOutput :=
  { category := "general"
    urgency := .vstr "medium"
    sentiment := .vstr "neutral"
    summary := .vstr ("Classification error: " ++ e)
    error := some e }

/-- `CLASSIFIER_USER_TEMPLATE.format(...)` / `get_classifier_prompt`
(`classifier_prompts.py` lines 67–88). -/
def getClassifierPrompt (subject description : String) : String :=
  "Customer message::\n\nSubject: " ++ subject
  ++ "\n\nDescription: " ++ description

/-- `TicketClassifier.classify` (`classifier.py` lines 57–139).  The LLM
collaborator is the oracle `llm` applied to the generated user prompt,
the JSON parser is the oracle `jp`.  Every failure inside the `try`
block (LLM invocation, JSON parsing, `.get`/`.lower()` on a
wrongly-typed reply) is caught and degraded; the category is lowercased
and coerced into the recognized set. -/
def classify (llm : String → Except String String)
    (jp : String → Except String PyVal)
    (subject description : String) : ClassifyOutput :=
  match llm (getClassifierPrompt subject description) with
  | .error e => degradedClassification e
  | .ok responseText =>
      match parseResponse jp responseText with
      | .error e => degradedClassification e
      | .ok parsed =>
          match parsed with
          | .vdict d =>
              match (dget d "category").getD (.vstr "general") with
              | .vstr cat0 =>
                  let cat1 := strLower cat0
                  let category :=
                    if cat1 ∈ classifyCategories then cat1 else "general"
                  { category := category
                    urgency := (dget d "urgency").getD (.vstr "medium")
                    sentiment := (dget d "sentiment").getD (.vstr "neutral")
                    summary := (dget d "summary").getD (.vstr "")
                    error := none }
              | _ =>
                  -- a non-string "category" raises AttributeError on
                  -- `.lower()`, caught by the same except branch
                  degradedClassification
                    "AttributeError: object has no attribute lower"
          | _ =>
              -- a non-dictionary JSON reply raises AttributeError on
              -- `.get`, caught by the same except branch
              degradedClassification
                "AttributeError: object has no attribute get"

/-! ## Persistence (`db_tools.py`, `create_support_ticket`;
`graph.py`, `run_ticket`) -/

/-- A row of the `tickets` table as created by `create_support_ticket`. -/
structure TicketRec where
  ticket_id : String
  user_id : String
  user_email : Option String
  subject : String
  description : String
  category : String
  priority : String
  status : String
  reservation_id : Option String
  agent_notes : Option String

/-- The dictionary returned by `create_support_ticket`. -/
structure SaveOutcome where
  success : Bool
  message : Option String
  error : Option String
  ticket_id : String

/-- `create_support_ticket` (`db_tools.py` lines 296–366).  The database
session is the committed row list `db`; the user lookup is the oracle
`userByEmail`; the add-and-commit step is the oracle `commit`.  On
failure the session is rolled back: the committed rows are returned
unchanged and the outcome carries `success = False` with the error. -/
def createSupportTicket (db : List TicketRec)
    (userByEmail : String → Option String) (commit : Except String Unit)
    (ticket_id subject description category priority status : String)
    (user_email reservation_id agent_notes : Option String) :
    List TicketRec × SaveOutcome :=
  let resolvedUserId : String :=
    match user_email with
    | some em => if em ≠ "" then (userByEmail em).getD "u_anonymous"
                 else "u_anonymous"
    | none => "u_anonymous"
  let row : TicketRec :=
    { ticket_id := ticket_id
      user_id := resolvedUserId
      user_email := user_email
      subject := subject
      description := description
      category := category
      priority := priority
      status := status
      reservation_id := reservation_id
      agent_notes := agent_notes }
  match commit with
  | .ok _ =>
      (db ++ [row],
       { success := true
         message := some ("Ticket " ++ ticket_id ++ " created successfully")
         error := none
         ticket_id := ticket_id })
  | .error e =>
      -- session.rollback(): the transaction leaves no partial record
      (db,
       { success := false
         message := none
         error := some e
         ticket_id := ticket_id })

/-- The dictionary returned by `run_ticket` (the fields the claims
consult). -/
structure RunOutput where
  ticket_id : String
  final_response : String
  final_status : String
  rag_confidence : ℚ
  ticket_saved : Bool

/-- The `urgency_to_priority` mapping of `run_ticket`
(`graph.py` lines 187–193), with default `"medium"`. -/
def urgencyToPriority (u : String) : String :=
  if u = "low" then "low"
  else if u = "medium" then "medium"
  else if u = "high" then "high"
  else if u = "critical" then "critical"
  else "medium"

/-- The output-formatting and persistence tail of `run_ticket`
(`graph.py` lines 161–221): the customer-facing output is fully built
from the terminal workflow state BEFORE the save; the save outcome only
sets the `ticket_saved` flag. -/
def runTicketPersist (result : TState) (db : List TicketRec)
    (userByEmail : String → Option String) (commit : Except String Unit) :
    RunOutput × List TicketRec :=
  let priority := urgencyToPriority result.urgency
  let status := if result.final_status = "resolved" then "resolved"
                else "escalated"
  let agentNotes :=
    "AI Classification: " ++ result.category ++ " | " ++ result.urgency
    ++ " | " ++ result.sentiment ++ "\n"
    ++ "Summary: " ++ result.summary ++ "\n"
    ++ "RAG Confidence: " ++ formatPercent result.rag_confidence
  let saved := createSupportTicket db userByEmail commit
                 result.ticket_id result.subject result.description
                 result.category priority status
                 result.user_email result.reservation_id (some agentNotes)
  ({ ticket_id := result.ticket_id
     final_response := result.final_response
     final_status := result.final_status
     rag_confidence := result.rag_confidence
     ticket_saved := saved.2.success }, saved.1)

/-! ## Helper lemmas -/

theorem strContains_append (a b c : String) :
    strContains (a ++ b ++ c) b = true := by
  simp only [strContains, decide_eq_true_eq]
  rw [String.data_append, String.data_append]
  exact List.infix_append a.data b.data c.data

theorem roundHalfEven_300 : roundHalfEven ((3 : ℚ)/10 * 1000) = 300 := by
  unfold roundHalfEven; norm_num

theorem formatPercent_30 : formatPercent (3/10) = "30.0%" := by
  simp only [formatPercent, roundHalfEven_300]
  decide

theorem shouldEscalate_rule1_eq (c : Classification) (conf : ℚ)
    (kb : List PyVal) (resp : String) (tools : List (String × PyVal))
    (h : c.category = "complaint") :
    shouldEscalate c conf kb resp tools =
      (true, "Complaints require human review for customer satisfaction") := by
  unfold shouldEscalate; dsimp only; rw [if_pos h]

theorem shouldEscalate_rule2_eq (c : Classification) (conf : ℚ)
    (kb : List PyVal) (resp : String) (tools : List (String × PyVal))
    (hc : c.category ≠ "complaint") (h : conf < 1/2) :
    shouldEscalate c conf kb resp tools =
      (true, "Low knowledge base confidence (" ++ formatPercent conf ++ ")") := by
  unfold shouldEscalate; dsimp only; rw [if_neg hc, if_pos h]

/-! ## Claim theorems -/

/-- C8: `_calculate_priority` is a total function into `{1,2,3,4}`,
evaluated first-match-wins in the order
P1 (`urgency == critical` OR `category == complaint`),
P2 (`urgency == high` AND `sentiment == negative`),
P3 (`urgency ∈ {medium, high}` OR the reason contains `"confidence"`),
P4 otherwise — in particular P1 always wins when `urgency == critical`
even if the P2/P3 conditions also hold. -/
theorem priority_first_match_total (c : Classification) (reason : String) :
    calculatePriority c reason ∈ [1, 2, 3, 4] ∧
    ((c.urgency = "critical" ∨ c.category = "complaint") →
      calculatePriority c reason = 1) ∧
    (¬(c.urgency = "critical" ∨ c.category = "complaint") →
      (c.urgency = "high" ∧ c.sentiment = "negative") →
      calculatePriority c reason = 2) ∧
    (¬(c.urgency = "critical" ∨ c.category = "complaint") →
      ¬(c.urgency = "high" ∧ c.sentiment = "negative") →
      (c.urgency = "medium" ∨ c.urgency = "high" ∨
        strContains (strLower reason) "confidence" = true) →
      calculatePriority c reason = 3) ∧
    (¬(c.urgency = "critical" ∨ c.category = "complaint") →
      ¬(c.urgency = "high" ∧ c.sentiment = "negative") →
      ¬(c.urgency = "medium" ∨ c.urgency = "high" ∨
        strContains (strLower reason) "confidence" = true) →
      calculatePriority c reason = 4) := by
  simp only [calculatePriority]
  split_ifs with h1 h2 h3 <;> simp_all

/-- Witness for C8: a critical-urgency classification is assigned
priority 1 even though the P2 and P3 conditions also hold. -/
theorem priority_first_match_total_witness :
    calculatePriority ⟨"general", "critical", "negative", "s"⟩
      "Low knowledge base confidence (30.0%)" = 1 :=
  (priority_first_match_total ⟨"general", "critical", "negative", "s"⟩
    "Low knowledge base confidence (30.0%)").2.1 (Or.inl rfl)

/-- C10: for every workflow state whose status is anything other than the
exact string `"escalated"`, the router returns `"respond"` and the
dispatched respond path sets `final_status = "resolved"` (with the
final response taken from the resolver's response). -/
theorem router_non_escalated_resolves (escLLM : Except String String)
    (st : TState) (h : st.status ≠ "escalated") :
    routeFromResolver st = "respond" ∧
    routerDispatch escLLM st =
      .ok { st with final_response := st.response, final_status := "resolved" } := by
  refine ⟨by simp [routeFromResolver, h], ?_⟩
  simp [routerDispatch, routeFromResolver, h, responseNode]

/-- Witness for C10 at the empty-status initial state. -/
theorem router_non_escalated_resolves_witness :
    routeFromResolver (createInitialState "T" "s" "d" none none) = "respond" ∧
    routerDispatch (.ok "m") (createInitialState "T" "s" "d" none none) =
      .ok { createInitialState "T" "s" "d" none none with
              final_response := (createInitialState "T" "s" "d" none none).response,
              final_status := "resolved" } :=
  router_non_escalated_resolves (.ok "m") (createInitialState "T" "s" "d" none none)
    (by decide)

/-- C2, counterexample: the complaint rule escalates with the reason
`"Complaints require human review for customer satisfaction"`, which is
not the string `"complaints require human review"` stated by the claim. -/
theorem complaint_reason_counterexample :
    (shouldEscalate ⟨"complaint", "low", "neutral", ""⟩ (9/10)
        [.vdict [("relevance", .vnum (9/10))]] "All good." []).2
      ≠ "complaints require human review" := by decide

/-- C2, amended: for every classification with `category == "complaint"`,
`_should_escalate` returns `escalate = true` with the fixed reason
`"Complaints require human review for customer satisfaction"`, regardless
of the confidence, the KB results, the response text or the tool
results. -/
theorem complaint_always_escalates (c : Classification) (conf : ℚ)
    (kb : List PyVal) (resp : String) (tools : List (String × PyVal))
    (h : c.category = "complaint") :
    shouldEscalate c conf kb resp tools =
      (true, "Complaints require human review for customer satisfaction") := by
  simp [shouldEscalate, h]

/-- Witness for the amended C2 at a high-confidence complaint. -/
theorem complaint_always_escalates_witness :
    shouldEscalate ⟨"complaint", "critical", "negative", "s"⟩ (9/10)
      [.vdict [("relevance", .vnum (9/10))]] "All good." [] =
      (true, "Complaints require human review for customer satisfaction") :=
  complaint_always_escalates ⟨"complaint", "critical", "negative", "s"⟩ (9/10)
    [.vdict [("relevance", .vnum (9/10))]] "All good." [] rfl

/-- C3, counterexample: a complaint with confidence `0.3 < 0.5` escalates
through rule 1, so the reason is the complaint reason and does not
contain the numeric confidence value (`"30.0%"`). -/
theorem low_confidence_reason_counterexample :
    ((3 : ℚ)/10 < 1/2) ∧
    formatPercent (3/10) = "30.0%" ∧
    (shouldEscalate ⟨"complaint", "medium", "neutral", ""⟩ (3/10) [] "" []).1
      = true ∧
    strContains
      (shouldEscalate ⟨"complaint", "medium", "neutral", ""⟩ (3/10) [] "" []).2
      (formatPercent (3/10)) = false := by
  have h1 := shouldEscalate_rule1_eq ⟨"complaint", "medium", "neutral", ""⟩
    (3/10) [] "" [] rfl
  refine ⟨by norm_num, formatPercent_30, by rw [h1], ?_⟩
  rw [h1, formatPercent_30]
  decide

/-- C3, amended: every ticket with rag confidence strictly below `0.5`
escalates; when additionally the category is not `"complaint"` (so rule 1
does not fire first), the reason is the low-confidence reason and
contains the numeric confidence value as formatted by the engine. -/
theorem low_confidence_always_escalates (c : Classification) (conf : ℚ)
    (kb : List PyVal) (resp : String) (tools : List (String × PyVal))
    (h : conf < 1/2) :
    (shouldEscalate c conf kb resp tools).1 = true ∧
    (c.category ≠ "complaint" →
      (shouldEscalate c conf kb resp tools).2 =
        "Low knowledge base confidence (" ++ formatPercent conf ++ ")" ∧
      strContains (shouldEscalate c conf kb resp tools).2
        (formatPercent conf) = true) := by
  by_cases hc : c.category = "complaint"
  · rw [shouldEscalate_rule1_eq c conf kb resp tools hc]
    exact ⟨rfl, fun hne => absurd hc hne⟩
  · rw [shouldEscalate_rule2_eq c conf kb resp tools hc h]
    exact ⟨rfl, fun _ => ⟨rfl,
      strContains_append "Low knowledge base confidence ("
        (formatPercent conf) ")"⟩⟩

/-- Witness for the amended C3 at a non-complaint ticket with
confidence `0.3`. -/
theorem low_confidence_always_escalates_witness :
    (shouldEscalate ⟨"general", "medium", "neutral", ""⟩ (3/10) [] "" []).1
      = true ∧
    (shouldEscalate ⟨"general", "medium", "neutral", ""⟩ (3/10) [] "" []).2 =
      "Low knowledge base confidence (" ++ formatPercent (3/10) ++ ")" ∧
    strContains (shouldEscalate ⟨"general", "medium", "neutral", ""⟩ (3/10) [] "" []).2
      (formatPercent (3/10)) = true := by
  have h := low_confidence_always_escalates ⟨"general", "medium", "neutral", ""⟩
    (3/10) [] "" [] (by norm_num)
  exact ⟨h.1, (h.2 (by decide)).1, (h.2 (by decide)).2⟩

/-- C9: when the final persistence commit fails, the outcome carries
`ticket_saved = false`, the already-computed `final_status` and
`final_response` are returned unchanged, and the rolled-back transaction
leaves the committed rows exactly as they were. -/
theorem persistence_failure_nonfatal (result : TState) (db : List TicketRec)
    (userByEmail : String → Option String) (e : String) :
    (runTicketPersist result db userByEmail (.error e)).1.ticket_saved = false ∧
    (runTicketPersist result db userByEmail (.error e)).1.final_status =
      result.final_status ∧
    (runTicketPersist result db userByEmail (.error e)).1.final_response =
      result.final_response ∧
    (runTicketPersist result db userByEmail (.error e)).2 = db := by
  simp [runTicketPersist, createSupportTicket]

/-- A concrete escalated state for exercising the escalation node. -/
def c6State : TState :=
  { createInitialState "T-6" "Angry about venue" "The venue was terrible"
      none none with
    category := "general", urgency := "high", sentiment := "negative",
    summary := "venue complaint",
    tool_results := [("kb_results", .vlist [.vdict [("relevance", .vnum (3/10))]])],
    rag_confidence := 3/10,
    response := "resp",
    escalation_reason := "Low knowledge base confidence (30.0%)",
    status := "escalated" }

/-- C6: when the language-model call that generates the customer holding
message fails, `EscalationAgent.escalate` does NOT fall back to a
generic message — the failure propagates out of `escalate` and out of
`escalation_node`, so neither the escalation package nor the priority is
produced.  (The claim's fallback behaviour does not exist in the code:
`_generate_customer_message` has no exception handling.) -/
theorem escalation_message_failure_propagates :
    (∀ (e : String) (td : TicketData) (c : Classification)
       (tools : List (String × PyVal)) (reason : String)
       (rr : Option String),
       escalate (.error e) td c tools reason rr = .error e) ∧
    escalationNode (.error "Bedrock invocation failed") c6State =
      .error "Bedrock invocation failed" := by
  exact ⟨fun e td c tools reason rr => rfl, rfl⟩

/-- A concrete Chroma result row for the key-mismatch theorem. -/
def c1Row : ChromaRow :=
  { document := "Refund policy details"
    metadata := [("title", .vstr "Refund Policy"),
                 ("category", .vstr "Refunds"),
                 ("article_id", .vstr "KB-001")]
    distance := 1/5 }

/-- An environment whose knowledge-base search returns the formatted
article for `c1Row` and whose data-store oracles are unused. -/
def c1Env : Env :=
  { kbSearch := fun _ _ => .ok (searchKnowledgeBaseFormat [c1Row])
    getUserInfo := fun _ => .error "not used"
    getUserReservations := fun _ _ => .error "not used"
    getUserTickets := fun _ _ => .error "not used"
    getReservationInfo := fun _ => .error "not used" }

/-- A concrete classified non-off-topic state for the key-mismatch
theorem. -/
def c1State : TState :=
  { createInitialState "T-1" "Refund request"
      "My event was cancelled, I want my money back" none none with
    category := "refund", urgency := "medium", sentiment := "neutral" }

/-- C1: the rag confidence computed by `tool_calling_node` reads the key
`"relevance"`, but `search_knowledge_base` stores the score under
`"relevance_score"` — so for every non-empty search result the computed
confidence is `0`, NOT the top match's relevance score.  Concretely: a
search returning a top match with `relevance_score = 0.8` yields rag
confidence `0`. -/
theorem rag_confidence_key_mismatch :
    (∀ (row : ChromaRow) (rows : List ChromaRow),
      ragConfidenceFromKb
        (some (.vlist (searchKnowledgeBaseFormat (row :: rows)))) = 0) ∧
    searchKnowledgeBaseFormat [c1Row] =
      [.vdict [("title", .vstr "Refund Policy"),
               ("content", .vstr "Refund policy details"),
               ("category", .vstr "Refunds"),
               ("article_id", .vstr "KB-001"),
               ("relevance_score", .vnum (round3 (1 - 1/5)))]] ∧
    round3 (1 - 1/5) = 4/5 ∧
    ((4 : ℚ)/5 ≠ 0) ∧
    (toolCallingNode c1Env c1State).rag_confidence = 0 := by
  have hr : roundHalfEven ((1 - (1 : ℚ)/5) * 1000) = 800 := by
    unfold roundHalfEven; norm_num
  refine ⟨fun row rows => rfl, rfl, ?_, by norm_num, rfl⟩
  rw [round3, hr]; norm_num

/-- C4: for every ticket classified `off_topic`, the pipeline performs no
knowledge-base search and no data-store read (empty call log), the rag
confidence is `0`, the final response is the fixed polite-decline
message, and the final status is `"resolved"`. -/
theorem off_topic_short_circuit (env : Env) (rLLM eLLM : Except String String)
    (st : TState) (h : st.category = "off_topic") :
    runFromClassified env rLLM eLLM st =
      (.ok { st with tool_results := [("off_topic", .vbool true)],
                     rag_confidence := 0,
                     response := offTopicDecline,
                     escalation_reason := "",
                     status := "resolved",
                     final_response := offTopicDecline,
                     final_status := "resolved" }, []) := by
  have hu : toolCallingNode env st =
      { tool_results := [("off_topic", .vbool true)], rag_confidence := 0,
        status := some "resolved", response := some offTopicDecline,
        calls := [] } := by
    unfold toolCallingNode; dsimp only; rw [if_pos h]
  simp [runFromClassified, hu, applyToolUpdate, resolverNode, dget,
        pyTruthyOpt, pyTruthy, applyResolverUpdate, routerDispatch,
        routeFromResolver, responseNode]

/-- An environment whose collaborators all fail — used to witness that
the off-topic path never consults them. -/
def c4Env : Env :=
  { kbSearch := fun _ _ => .error "must not be called"
    getUserInfo := fun _ => .error "must not be called"
    getUserReservations := fun _ _ => .error "must not be called"
    getUserTickets := fun _ _ => .error "must not be called"
    getReservationInfo := fun _ => .error "must not be called" }

/-- A concrete off-topic classified state. -/
def c4State : TState :=
  { createInitialState "T-4" "What is the capital of France" "Just curious"
      (some "user@example.com") (some "R-1") with
    category := "off_topic", urgency := "low", sentiment := "neutral" }

/-- Witness for C4 at a concrete off-topic ticket (with caller email and
reservation id present, which the short-circuit still ignores). -/
theorem off_topic_short_circuit_witness :
    runFromClassified c4Env (.error "llm down") (.error "llm down") c4State =
      (.ok { c4State with tool_results := [("off_topic", .vbool true)],
                          rag_confidence := 0,
                          response := offTopicDecline,
                          escalation_reason := "",
                          status := "resolved",
                          final_response := offTopicDecline,
                          final_status := "resolved" }, []) :=
  off_topic_short_circuit c4Env (.error "llm down") (.error "llm down")
    c4State rfl

theorem strTake_length_le (s : String) (n : ℕ) : (strTake s n).length ≤ n := by
  show (s.data.take n).length ≤ n
  rw [List.length_take]
  exact min_le_left _ _

theorem findToolError_cons_str (k t : String)
    (rest : List (String × PyVal)) (cat : String) :
    findToolError ((k, PyVal.vstr t) :: rest) cat =
      if strContains (strLower t) "error" = true ∧
         (cat = "refund" ∨ cat = "cancellation")
      then some t else findToolError rest cat := rfl

theorem findToolError_cons_nonstr (k : String) (v : PyVal)
    (rest : List (String × PyVal)) (cat : String)
    (hv : ∀ s, v ≠ PyVal.vstr s) :
    findToolError ((k, v) :: rest) cat = findToolError rest cat := by
  cases v
  case vstr t => exact absurd rfl (hv t)
  all_goals rfl

theorem findToolError_some_spec (tools : List (String × PyVal))
    (cat s : String) (h : findToolError tools cat = some s) :
    (∃ k, (k, PyVal.vstr s) ∈ tools) ∧
    strContains (strLower s) "error" = true := by
  induction tools with
  | nil => simp [findToolError] at h
  | cons p rest ih =>
    obtain ⟨k, v⟩ := p
    cases v
    case vstr t =>
      rw [findToolError_cons_str] at h
      by_cases hc : strContains (strLower t) "error" = true ∧
          (cat = "refund" ∨ cat = "cancellation")
      · rw [if_pos hc] at h
        obtain rfl : t = s := by injection h
        exact ⟨⟨k, List.mem_cons_self _ _⟩, hc.1⟩
      · rw [if_neg hc] at h
        obtain ⟨⟨k', hk'⟩, herr⟩ := ih h
        exact ⟨⟨k', List.mem_cons_of_mem _ hk'⟩, herr⟩
    all_goals (
      rw [findToolError_cons_nonstr _ _ _ _ (fun _ hh => PyVal.noConfusion hh)] at h
      obtain ⟨⟨k', hk'⟩, herr⟩ := ih h
      exact ⟨⟨k', List.mem_cons_of_mem _ hk'⟩, herr⟩)

theorem findToolError_some_of_mem (tools : List (String × PyVal))
    (cat : String) (hcat : cat = "refund" ∨ cat = "cancellation")
    (h : ∃ k s, (k, PyVal.vstr s) ∈ tools ∧
           strContains (strLower s) "error" = true) :
    ∃ s, findToolError tools cat = some s := by
  induction tools with
  | nil => simp at h
  | cons p rest ih =>
    obtain ⟨k0, s0, hmem, herr⟩ := h
    rcases List.mem_cons.mp hmem with heq | hrest
    · obtain rfl := heq.symm
      exact ⟨s0, by rw [findToolError_cons_str, if_pos ⟨herr, hcat⟩]⟩
    · obtain ⟨k', v⟩ := p
      cases v
      case vstr t =>
        by_cases hc : strContains (strLower t) "error" = true ∧
            (cat = "refund" ∨ cat = "cancellation")
        · exact ⟨t, by rw [findToolError_cons_str, if_pos hc]⟩
        · obtain ⟨s', hs'⟩ := ih ⟨k0, s0, hrest, herr⟩
          exact ⟨s', by rw [findToolError_cons_str, if_neg hc]; exact hs'⟩
      all_goals (
        obtain ⟨s', hs'⟩ := ih ⟨k0, s0, hrest, herr⟩
        exact ⟨s', by
          rw [findToolError_cons_nonstr _ _ _ _ (fun _ hh => PyVal.noConfusion hh)]
          exact hs'⟩)

theorem dget_cons_self (k : String) (v : PyVal) (d : List (String × PyVal)) :
    dget ((k, v) :: d) k = some v := by
  simp [dget, List.find?]

theorem dget_cons_of_ne (k0 k : String) (v : PyVal)
    (d : List (String × PyVal)) (h : k0 ≠ k) :
    dget ((k0, v) :: d) k = dget d k := by
  have hbe : (k0 == k) = false := by simp [h]
  simp [dget, List.find?, hbe]

theorem shouldEscalate_rule6_eq (c : Classification) (conf : ℚ)
    (kb : List PyVal) (resp : String) (tools : List (String × PyVal))
    (hcompl : c.category ≠ "complaint")
    (h2 : ¬(conf < 1/2))
    (h3 : kb.isEmpty = false)
    (h4 : (insufficientMarkers.any fun m => strContains (strLower resp) m) = false)
    (h5 : ¬(c.urgency = "critical" ∧ c.sentiment = "negative" ∧ conf < 7/10)) :
    shouldEscalate c conf kb resp tools =
      (match findToolError tools c.category with
       | some v => (true, "Tool error in critical category: " ++ strTake v 100)
       | none => (false, "")) := by
  unfold shouldEscalate; dsimp only
  rw [if_neg hcompl, if_neg h2, if_neg (by simp [h3]), if_neg (by simp [h4]),
      if_neg h5]

/-- C5: (a) in the context gatherer, each external lookup's stored value
is a function of that lookup's own oracle alone, and a failing lookup is
recorded as an error marker under that lookup's key (so one failure
neither aborts the node nor affects the other lookups); (b) in the rule
engine, whenever some tool result value is a string whose lowercase form
contains `"error"`, the category is `refund` or `cancellation`, and no
earlier rule fires, the engine escalates with a reason echoing a
truncated (≤ 100 character) excerpt of the offending value. -/
theorem tool_failure_isolation_and_tool_error_rule :
    (∀ (env : Env) (st : TState) (em : String),
      st.category ≠ "off_topic" → st.user_email = some em → em ≠ "" →
      dget (toolCallingNode env st).tool_results "kb_results" =
        some (listOrErr
          ((env.kbSearch (st.subject ++ " " ++ st.description) 3).map .vlist)) ∧
      dget (toolCallingNode env st).tool_results "user_info" =
        some (dictOrErr (env.getUserInfo em)) ∧
      dget (toolCallingNode env st).tool_results "user_reservations" =
        some (listOrErr (env.getUserReservations em 10)) ∧
      dget (toolCallingNode env st).tool_results "user_support_tickets" =
        some (listOrErr (env.getUserTickets em 5)) ∧
      (∀ e, env.getUserReservations em 10 = .error e →
        dget (toolCallingNode env st).tool_results "user_reservations" =
          some (.vlist [.vdict [("error", .vstr e)]]))) ∧
    (∀ (c : Classification) (conf : ℚ) (kb : List PyVal) (resp : String)
       (tools : List (String × PyVal)),
      (c.category = "refund" ∨ c.category = "cancellation") →
      ¬(conf < 1/2) → kb.isEmpty = false →
      (insufficientMarkers.any fun m => strContains (strLower resp) m) = false →
      ¬(c.urgency = "critical" ∧ c.sentiment = "negative" ∧ conf < 7/10) →
      (∃ k s, (k, PyVal.vstr s) ∈ tools ∧
         strContains (strLower s) "error" = true) →
      (shouldEscalate c conf kb resp tools).1 = true ∧
      ∃ s, (∃ k, (k, PyVal.vstr s) ∈ tools) ∧
           strContains (strLower s) "error" = true ∧
           (shouldEscalate c conf kb resp tools).2 =
             "Tool error in critical category: " ++ strTake s 100 ∧
           (strTake s 100).length ≤ 100) := by
  constructor
  · intro env st em hcat hue hem
    have htr : (toolCallingNode env st).tool_results =
        ("kb_results", listOrErr
           ((env.kbSearch (st.subject ++ " " ++ st.description) 3).map .vlist)) ::
        ("user_info", dictOrErr (env.getUserInfo em)) ::
        ("user_reservations", listOrErr (env.getUserReservations em 10)) ::
        ("user_support_tickets", listOrErr (env.getUserTickets em 5)) ::
        (if st.category = "refund" ∨ st.category = "cancellation" ∨
            st.category = "complaint" then
           match st.reservation_id with
           | some rid =>
               if rid ≠ "" then
                 [("reservation_info", dictOrErr (env.getReservationInfo rid))]
               else []
           | none => []
         else []) := by
      unfold toolCallingNode
      dsimp only
      rw [if_neg hcat, hue]
      dsimp only
      rw [if_pos hem]
      simp only [List.cons_append, List.nil_append]
    refine ⟨?_, ?_, ?_, ?_, ?_⟩
    · rw [htr, dget_cons_self]
    · rw [htr, dget_cons_of_ne _ _ _ _ (by decide), dget_cons_self]
    · rw [htr, dget_cons_of_ne _ _ _ _ (by decide),
          dget_cons_of_ne _ _ _ _ (by decide), dget_cons_self]
    · rw [htr, dget_cons_of_ne _ _ _ _ (by decide),
          dget_cons_of_ne _ _ _ _ (by decide),
          dget_cons_of_ne _ _ _ _ (by decide), dget_cons_self]
    · intro e he
      rw [htr, dget_cons_of_ne _ _ _ _ (by decide),
          dget_cons_of_ne _ _ _ _ (by decide), dget_cons_self, he]
      exact rfl
  · intro c conf kb resp tools hcat h2 h3 h4 h5 hmem
    have hcompl : c.category ≠ "complaint" := by
      rcases hcat with h | h <;> simp [h]
    obtain ⟨s, hfind⟩ := findToolError_some_of_mem tools c.category hcat hmem
    obtain ⟨⟨k, hk⟩, herr⟩ := findToolError_some_spec tools c.category s hfind
    have hse := shouldEscalate_rule6_eq c conf kb resp tools hcompl h2 h3 h4 h5
    rw [hfind] at hse
    rw [hse]
    exact ⟨rfl, s, ⟨k, hk⟩, herr, rfl, strTake_length_le s 100⟩

/-- An environment whose reservation-list lookup fails while the other
collaborators succeed. -/
def c5Env : Env :=
  { kbSearch := fun _ _ =>
      .ok [.vdict [("title", .vstr "Refunds"), ("relevance", .vnum (8/10))]]
    getUserInfo := fun _ => .ok (.vdict [("full_name", .vstr "Jo Doe")])
    getUserReservations := fun _ _ => .error "Database connection error"
    getUserTickets := fun _ _ => .ok (.vlist [])
    getReservationInfo := fun _ => .ok (.vdict []) }

/-- A concrete refund ticket with a caller email. -/
def c5State : TState :=
  { createInitialState "T-5" "Refund" "I want a refund"
      (some "jo@example.com") none with
    category := "refund", urgency := "medium", sentiment := "negative" }

/-- Witness for C5: the failing reservation lookup leaves an error marker
under `user_reservations` without disturbing the node, and a string tool
result containing "error" in a refund ticket triggers rule 6 with a
truncated excerpt in the reason. -/
theorem tool_failure_isolation_witness :
    dget (toolCallingNode c5Env c5State).tool_results "user_reservations" =
      some (.vlist [.vdict [("error", .vstr "Database connection error")]]) ∧
    (shouldEscalate ⟨"refund", "medium", "negative", ""⟩ (8/10)
        [.vdict [("relevance", .vnum (8/10))]] "Here is your answer."
        [("user_reservations", .vstr "error: database down")]).1 = true ∧
    ∃ s, (∃ k, (k, PyVal.vstr s) ∈
            [("user_reservations", PyVal.vstr "error: database down")]) ∧
         strContains (strLower s) "error" = true ∧
         (shouldEscalate ⟨"refund", "medium", "negative", ""⟩ (8/10)
             [.vdict [("relevance", .vnum (8/10))]] "Here is your answer."
             [("user_reservations", PyVal.vstr "error: database down")]).2 =
           "Tool error in critical category: " ++ strTake s 100 ∧
         (strTake s 100).length ≤ 100 := by
  have hA := (tool_failure_isolation_and_tool_error_rule.1 c5Env c5State
    "jo@example.com" (by decide) rfl (by decide)).2.2.2.2
    "Database connection error" rfl
  have hB := tool_failure_isolation_and_tool_error_rule.2
    ⟨"refund", "medium", "negative", ""⟩ (8/10)
    [.vdict [("relevance", .vnum (8/10))]] "Here is your answer."
    [("user_reservations", .vstr "error: database down")]
    (Or.inl rfl) (by norm_num) rfl (by decide)
    (fun h => absurd h.1 (by decide))
    ⟨"user_reservations", "error: database down", by simp, by decide⟩
  exact ⟨hA, hB.1, hB.2⟩

theorem firstIdx_append_of_not_mem (c : Char) (xs ys : List Char)
    (h : c ∉ xs) :
    firstIdx c (xs ++ ys) = (firstIdx c ys).map (· + xs.length) := by
  induction xs with
  | nil =>
      simp only [List.nil_append, List.length_nil]
      cases hf : firstIdx c ys <;> simp [hf]
  | cons x xs ih =>
      have hx : x ≠ c := fun hxc => h (hxc ▸ List.mem_cons_self x xs)
      have hxs : c ∉ xs := fun hc => h (List.mem_cons_of_mem x hc)
      rw [List.cons_append, firstIdx, if_neg hx, ih hxs]
      cases firstIdx c ys <;> simp [Nat.add_assoc, Nat.add_comm 1]

theorem firstIdx_cons_self (c : Char) (xs : List Char) :
    firstIdx c (c :: xs) = some 0 := by
  rw [firstIdx, if_pos rfl]

theorem parseResponse_extracts (jp : String → Except String PyVal)
    (a m b : String) (ha : lbrace ∉ a.data) (hb : rbrace ∉ b.data)
    (hm1 : m.data.head? = some lbrace) (hm2 : m.data.getLast? = some rbrace) :
    parseResponse jp (a ++ m ++ b) = wrapParseError (jp m) (a ++ m ++ b) := by
  obtain ⟨tl, htl⟩ : ∃ tl, m.data = lbrace :: tl := by
    cases hmd : m.data with
    | nil => rw [hmd] at hm1; simp at hm1
    | cons x xs =>
        rw [hmd] at hm1
        simp only [List.head?_cons, Option.some.injEq] at hm1
        exact ⟨xs, by rw [hm1]⟩
  obtain ⟨tr, htr⟩ : ∃ tr, m.data.reverse = rbrace :: tr := by
    cases hmr : m.data.reverse with
    | nil =>
        rw [← List.head?_reverse, hmr] at hm2; simp at hm2
    | cons x xs =>
        rw [← List.head?_reverse, hmr] at hm2
        simp only [List.head?_cons, Option.some.injEq] at hm2
        exact ⟨xs, by rw [hm2]⟩
  have hml : 1 ≤ m.data.length := by rw [htl]; simp
  have hdata : (a ++ m ++ b).data = (a.data ++ m.data) ++ b.data := by
    rw [String.data_append, String.data_append]
  have hfind : pyFind (a ++ m ++ b) lbrace = (a.data.length : ℤ) := by
    rw [pyFind, hdata, List.append_assoc,
        firstIdx_append_of_not_mem _ _ _ ha, htl, List.cons_append,
        firstIdx_cons_self]
    simp
  have hbrev : rbrace ∉ b.data.reverse := fun hc => hb (List.mem_reverse.mp hc)
  have hrev : (a ++ m ++ b).data.reverse =
      b.data.reverse ++ (m.data.reverse ++ a.data.reverse) := by
    rw [hdata, List.reverse_append, List.reverse_append]
  have hscrut : firstIdx rbrace (a ++ m ++ b).data.reverse =
      some b.data.length := by
    rw [hrev, firstIdx_append_of_not_mem _ _ _ hbrev, htr, List.cons_append,
        firstIdx_cons_self]
    simp
  have hlen : (a ++ m ++ b).data.length =
      a.data.length + m.data.length + b.data.length := by
    rw [hdata]; simp only [List.length_append]
  have hrfind : pyRFind (a ++ m ++ b) rbrace =
      ((a.data.length + m.data.length - 1 : ℕ) : ℤ) := by
    rw [pyRFind, hscrut]
    dsimp only
    rw [hlen]
    congr 1
    omega
  unfold parseResponse
  dsimp only
  rw [hfind, hrfind]
  rw [if_pos ⟨by omega, by omega⟩]
  have hslice : pySlice (a ++ m ++ b) ((a.data.length : ℤ)).toNat
      (((a.data.length + m.data.length - 1 : ℕ) : ℤ) + 1).toNat = m := by
    have h1 : ((a.data.length : ℤ)).toNat = a.data.length := by omega
    have h2 : (((a.data.length + m.data.length - 1 : ℕ) : ℤ) + 1).toNat =
        a.data.length + m.data.length := by omega
    rw [h1, h2, pySlice, hdata]
    rw [List.take_left' (by rw [List.length_append])]
    rw [List.drop_left]
  rw [hslice]

/-- A JSON-parser oracle that always returns a classification dictionary
whose category is the capitalized string `"Refund"`. -/
def c7jp : String → Except String PyVal :=
  fun _ => .ok (.vdict [("category", .vstr "Refund"),
                        ("urgency", .vstr "low"),
                        ("sentiment", .vstr "neutral"),
                        ("summary", .vstr "refund request")])

/-- C7, counterexample: the category value `"Refund"` is outside the
enumerated set and is not `"off_topic"`, yet `classify` normalizes it to
`"refund"` (the code lowercases before the membership check), not to
`"general"` as the claim states. -/
theorem classify_category_case_counterexample :
    (classify (fun _ => .ok "here you go") c7jp "subj" "desc").category =
      "refund" ∧
    "Refund" ∉ classifyCategories ∧
    ("Refund" : String) ≠ "off_topic" ∧
    ("refund" : String) ≠ "general" := by
  refine ⟨rfl, by decide, by decide, by decide⟩

/-- C7, amended: `classify` never raises outward — (a) an LLM invocation
failure yields the degraded classification with `category="general"`,
`urgency="medium"`, `sentiment="neutral"` and a summary naming the
failure; (b) a JSON-parse failure yields the degraded classification
built from the re-raised parse message; (c) the reply is parsed by
taking the substring from the first `{` to the last `}`; (d) a category
value whose LOWERCASED form is outside the enumerated set is normalized
to `"general"` (lowercased in-set values, `"off_topic"` included, are
kept). -/
theorem classify_degrades_and_normalizes :
    (∀ (jp : String → Except String PyVal) (s d e : String),
      classify (fun _ => .error e) jp s d = degradedClassification e ∧
      (degradedClassification e).category = "general" ∧
      (degradedClassification e).urgency = .vstr "medium" ∧
      (degradedClassification e).sentiment = .vstr "neutral" ∧
      (degradedClassification e).summary =
        .vstr ("Classification error: " ++ e)) ∧
    (∀ (jp : String → Except String PyVal) (msg s d reply : String),
      (∀ t, jp t = .error msg) →
      classify (fun _ => .ok reply) jp s d =
        degradedClassification
          ("Failed to parse JSON response: " ++ msg
           ++ "\nResponse: " ++ reply)) ∧
    (∀ (jp : String → Except String PyVal) (a m b : String),
      lbrace ∉ a.data → rbrace ∉ b.data →
      m.data.head? = some lbrace → m.data.getLast? = some rbrace →
      parseResponse jp (a ++ m ++ b) = wrapParseError (jp m) (a ++ m ++ b)) ∧
    (∀ (jp : String → Except String PyVal) (s d reply cat0 : String)
       (d0 : List (String × PyVal)),
      (∀ t, jp t = .ok (.vdict d0)) →
      dget d0 "category" = some (.vstr cat0) →
      (classify (fun _ => .ok reply) jp s d).category =
        (if strLower cat0 ∈ classifyCategories then strLower cat0
         else "general")) := by
  refine ⟨fun jp s d e => ⟨rfl, rfl, rfl, rfl, rfl⟩, ?_, ?_, ?_⟩
  · intro jp msg s d reply hjp
    have hp : parseResponse jp reply =
        .error ("Failed to parse JSON response: " ++ msg
                ++ "\nResponse: " ++ reply) := by
      unfold parseResponse
      dsimp only
      by_cases hcond : pyFind reply lbrace ≠ -1 ∧
          pyRFind reply rbrace + 1 > pyFind reply lbrace
      · rw [if_pos hcond, hjp]; rfl
      · rw [if_neg hcond, hjp]; rfl
    unfold classify
    dsimp only
    rw [hp]
  · intro jp a m b ha hb hm1 hm2
    exact parseResponse_extracts jp a m b ha hb hm1 hm2
  · intro jp s d reply cat0 d0 hjp hcat
    have hp : parseResponse jp reply = .ok (.vdict d0) := by
      unfold parseResponse
      dsimp only
      by_cases hcond : pyFind reply lbrace ≠ -1 ∧
          pyRFind reply rbrace + 1 > pyFind reply lbrace
      · rw [if_pos hcond, hjp]; rfl
      · rw [if_neg hcond, hjp]; rfl
    unfold classify
    dsimp only
    rw [hp]
    dsimp only
    rw [hcat]
    rfl

/-- Witness for the amended C7, instantiating each branch: an LLM
failure, a universally failing parser, a reply with leading and trailing
commentary around the JSON object, and a capitalized category value. -/
theorem classify_degrades_and_normalizes_witness :
    classify (fun _ => .error "Bedrock timeout") c7jp "subj" "desc" =
      degradedClassification "Bedrock timeout" ∧
    classify (fun _ => .ok "no json here")
        (fun _ => .error "Expecting value: line 1 column 1") "subj" "desc" =
      degradedClassification
        ("Failed to parse JSON response: Expecting value: line 1 column 1"
         ++ "\nResponse: no json here") ∧
    parseResponse c7jp
        ("Sure! " ++ "\x7b\"category\": \"general\"\x7d" ++ " Done.") =
      wrapParseError (c7jp "\x7b\"category\": \"general\"\x7d")
        ("Sure! " ++ "\x7b\"category\": \"general\"\x7d" ++ " Done.") ∧
    (classify (fun _ => .ok "reply") c7jp "subj" "desc").category =
      (if strLower "Refund" ∈ classifyCategories then strLower "Refund"
       else "general") := by
  refine ⟨(classify_degrades_and_normalizes.1 c7jp "subj" "desc"
            "Bedrock timeout").1, ?_, ?_, ?_⟩
  · exact classify_degrades_and_normalizes.2.1
      (fun _ => .error "Expecting value: line 1 column 1")
      "Expecting value: line 1 column 1" "subj" "desc" "no json here"
      (fun _ => rfl)
  · exact classify_degrades_and_normalizes.2.2.1 c7jp
      "Sure! " "\x7b\"category\": \"general\"\x7d" " Done."
      (by decide) (by decide) (by decide) (by decide)
  · exact classify_degrades_and_normalizes.2.2.2 c7jp
      "subj" "desc" "reply" "Refund"
      [("category", .vstr "Refund"), ("urgency", .vstr "low"),
       ("sentiment", .vstr "neutral"), ("summary", .vstr "refund request")]
      (fun _ => rfl) rfl
